import Mathlib

/-!
# Verification of the `subscription_vault` contract core

Shallow embedding of `contracts/subscription_vault/src`: the charge engine
(`charge_core.rs`), the status state machine (`state_machine.rs`), the checked
arithmetic layer (`safe_math.rs`), the batch processor (`admin.rs`) and the
subscription lifecycle operations (`subscription.rs`).

Modelling conventions:
* The host key/value store is modelled as explicit association lists keyed by
  `Nat` (subscription ids, merchant addresses); `Store` bundles the maps the
  embedded operations touch.  Addresses and 32-byte idempotency keys are opaque
  values compared by equality only, so both are modelled as `Nat`.
* `u64` values are `Nat` with an explicit bound `U64MAX`; `checked_add` on
  `u64` is an explicit bound test.  `i128` values are `Int`; `checked_sub` on
  `i128` is `checkedSubI128`, with the two's-complement range made explicit.
* Fallible Rust functions returning `Result<T, Error>` become `Except Error`.
  A Rust panic (an uncaught trap, e.g. `u64` division by zero) is modelled as
  `none` in an outer `Option`; operations that cannot trap do without it.
* Operations that mutate storage return the post-state `Store` next to the
  `Except` outcome, because the code persists some changes even on error paths
  (the `InsufficientBalance` status flip of `charge_one`).
* Authorization (`require_auth`, the admin gate) and event emission are
  external collaborators of the contract; they are outside the embedded state.
-/

set_option autoImplicit false

namespace SubscriptionVault

/-- Association-list lookup: first entry with the given key. -/
def lookupKey {β : Type} (l : List (Nat × β)) (k : Nat) : Option β :=
  match l with
  | [] => none
  | (k0, v0) :: rest => if k0 = k then some v0 else lookupKey rest k

/-- Association-list update: replace the first entry with the given key, or
append a fresh entry.  Models `storage().instance().set(key, value)`. -/
def setKey {β : Type} (l : List (Nat × β)) (k : Nat) (v : β) : List (Nat × β) :=
  match l with
  | [] => [(k, v)]
  | (k0, v0) :: rest => if k0 = k then (k, v) :: rest else (k0, v0) :: setKey rest k v

theorem lookupKey_setKey_same {β : Type} (l : List (Nat × β)) (k : Nat) (v : β) :
    lookupKey (setKey l k v) k = some v := by
  induction l with
  | nil => simp [setKey, lookupKey]
  | cons hd tl ih =>
    obtain ⟨k0, v0⟩ := hd
    by_cases h : k0 = k
    · simp [setKey, lookupKey, h]
    · simp [setKey, lookupKey, h, ih]

/-- From `types.rs`: the contract error enum. -/
inductive Error where
  | NotFound
  | Unauthorized
  | IntervalNotElapsed
  | NotActive
  | InvalidStatusTransition
  | BelowMinimumTopup
  | Overflow
  | Underflow
  | InsufficientBalance
  | UsageNotEnabled
  | InsufficientPrepaidBalance
  | InvalidAmount
  | Replay
  | InvalidRecoveryAmount
deriving DecidableEq, Repr

/-- From `types.rs`: `Error::to_code`, the numeric code for batch result reporting. -/
def Error.toCode : Error → Nat
  | .NotFound => 404
  | .Unauthorized => 401
  | .IntervalNotElapsed => 1001
  | .NotActive => 1002
  | .InvalidStatusTransition => 400
  | .BelowMinimumTopup => 402
  | .Overflow => 403
  | .Underflow => 1004
  | .InsufficientBalance => 1003
  | .UsageNotEnabled => 1009
  | .InsufficientPrepaidBalance => 1010
  | .InvalidAmount => 1006
  | .Replay => 1007
  | .InvalidRecoveryAmount => 1008

/-- From `types.rs`: lifecycle state of a subscription. -/
inductive SubscriptionStatus where
  | Active
  | Paused
  | Cancelled
  | InsufficientBalance
deriving DecidableEq, Repr, Fintype

/-- From `types.rs`: the `Subscription` record.  Addresses are opaque `Nat`s. -/
structure Subscription where
  subscriber : Nat
  merchant : Nat
  amount : Int
  interval_seconds : Nat
  last_payment_timestamp : Nat
  status : SubscriptionStatus
  prepaid_balance : Int
  usage_enabled : Bool
deriving DecidableEq, Repr

/-- From `types.rs`: per-id outcome reported by `batch_charge`. -/
structure BatchChargeResult where
  success : Bool
  error_code : Nat
deriving DecidableEq, Repr

/-- The slice of contract instance storage the embedded operations touch:
subscription records keyed by id, the per-id replay state (`"cp"` and `"idem"`
keys of `charge_core.rs`), the merchant index and the `next_id` counter. -/
structure Store where
  subs : List (Nat × Subscription)
  chargedPeriod : List (Nat × Nat)
  idem : List (Nat × Nat)
  merchantSubs : List (Nat × List Nat)
  nextId : Nat
deriving DecidableEq, Repr

/-- Largest `u64` value (as a literal, so kernel evaluation stays cheap). -/
def U64MAX : Nat := 18446744073709551615

/-- Smallest `i128` value. -/
def I128MIN : Int := -170141183460469231731687303715884105728

/-- Largest `i128` value. -/
def I128MAX : Int := 170141183460469231731687303715884105727

theorem U64MAX_eq : U64MAX = 2 ^ 64 - 1 := by norm_num [U64MAX]

theorem I128MIN_eq : I128MIN = -(2 ^ 127) := by norm_num [I128MIN]

theorem I128MAX_eq : I128MAX = 2 ^ 127 - 1 := by norm_num [I128MAX]

theorem I128MIN_nonpos : I128MIN ≤ 0 := by norm_num [I128MIN]

/-- Rust `i128::checked_sub`: the difference when representable, else `none`. -/
def checkedSubI128 (a b : Int) : Option Int :=
  if I128MIN ≤ a - b ∧ a - b ≤ I128MAX then some (a - b) else none

/-- Rust `i128::checked_add`: the sum when representable, else `none`. -/
def checkedAddI128 (a b : Int) : Option Int :=
  if I128MIN ≤ a + b ∧ a + b ≤ I128MAX then some (a + b) else none

/-- From `state_machine.rs`: the `valid` match of `validate_status_transition`. -/
def allowedTransition (f t : SubscriptionStatus) : Bool :=
  match f with
  | .Active =>
    match t with
    | .Paused => true
    | .Cancelled => true
    | .InsufficientBalance => true
    | _ => false
  | .Paused =>
    match t with
    | .Active => true
    | .Cancelled => true
    | _ => false
  | .Cancelled => false
  | .InsufficientBalance =>
    match t with
    | .Active => true
    | .Cancelled => true
    | _ => false

/-- From `state_machine.rs`: `validate_status_transition`. -/
def validate_status_transition (f t : SubscriptionStatus) : Except Error Unit :=
  if f = t then .ok ()
  else if allowedTransition f t then .ok ()
  else .error .InvalidStatusTransition

/-- From `safe_math.rs`: `safe_sub` via `checked_sub`, underflow as typed error. -/
def safe_sub (a b : Int) : Except Error Int :=
  match checkedSubI128 a b with
  | some r => .ok r
  | none => .error .Underflow

/-- From `safe_math.rs`: `safe_add` via `checked_add`, overflow as typed error. -/
def safe_add (a b : Int) : Except Error Int :=
  match checkedAddI128 a b with
  | some r => .ok r
  | none => .error .Overflow

/-- From `safe_math.rs`: `validate_non_negative`. -/
def validate_non_negative (amount : Int) : Except Error Unit :=
  if amount < 0 then .error .Underflow else .ok ()

/-- From `safe_math.rs`: `safe_sub_balance`. -/
def safe_sub_balance (balance amount : Int) : Except Error Int :=
  match validate_non_negative amount with
  | .error e => .error e
  | .ok _ =>
    match safe_sub balance amount with
    | .error e => .error e
    | .ok r => if r < 0 then .error .Underflow else .ok r

/-- From `charge_core.rs`, lines 80–119 of `charge_one` (the code after the replay
guard): interval-elapsed guards, the balance check with its persisted
InsufficientBalance status flip, the checked debit, and the final persists of
the subscription, the charged period, and the optional idempotency key. -/
def chargeSettle (st : Store) (id : Nat) (now : Nat) (tok : Option Nat)
    (sub : Subscription) : Option (Except Error Unit × Store) :=
  if U64MAX < sub.last_payment_timestamp + sub.interval_seconds then
    some (.error .Overflow, st)
  else if now < sub.last_payment_timestamp + sub.interval_seconds then
    some (.error .IntervalNotElapsed, st)
  else if sub.prepaid_balance < sub.amount then
    match validate_status_transition sub.status .InsufficientBalance with
    | .error e => some (.error e, st)
    | .ok _ =>
      some (.error .InsufficientBalance,
        { st with subs := setKey st.subs id { sub with status := .InsufficientBalance } })
  else
    match checkedSubI128 sub.prepaid_balance sub.amount with
    | none => some (.error .Overflow, st)
    | some nb =>
      let sub' := { sub with prepaid_balance := nb, last_payment_timestamp := now }
      let st1 := { st with subs := setKey st.subs id sub',
                           chargedPeriod := setKey st.chargedPeriod id (now / sub.interval_seconds) }
      match tok with
      | some k => some (.ok (), { st1 with idem := setKey st1.idem id k })
      | none => some (.ok (), st1)

/-- From `charge_core.rs`, lines 70–78 of `charge_one`: the period-based replay
guard (`Replay` when the stored charged period is ≥ the current one),
falling through to `chargeSettle`. -/
def chargeReplayGate (st : Store) (id : Nat) (now : Nat) (tok : Option Nat)
    (sub : Subscription) : Option (Except Error Unit × Store) :=
  match lookupKey st.chargedPeriod id with
  | some p =>
    if now / sub.interval_seconds ≤ p then some (.error .Replay, st)
    else chargeSettle st id now tok sub
  | none => chargeSettle st id now tok sub

/-- From `charge_core.rs`: `charge_one`, the interval charge.  `now` is the ledger
timestamp, `tok` the optional 32-byte idempotency key.  The `none` result
models the Rust trap on `now / sub.interval_seconds` when
`interval_seconds = 0` (`u64` division by zero panics).  The nested matches
mirror the Rust early returns: load, Active check, idempotent-replay check,
then the replay gate and settlement. -/
def charge_one (st : Store) (id : Nat) (now : Nat) (tok : Option Nat) :
    Option (Except Error Unit × Store) :=
  match lookupKey st.subs id with
  | none => some (.error .NotFound, st)
  | some sub =>
    if sub.status ≠ .Active then some (.error .NotActive, st)
    else if sub.interval_seconds = 0 then none
    else
      match tok with
      | none => chargeReplayGate st id now tok sub
      | some k =>
        match lookupKey st.idem id with
        | none => chargeReplayGate st id now tok sub
        | some stored =>
          if stored = k then some (.ok (), st) else chargeReplayGate st id now tok sub

/-- From `charge_core.rs`: `charge_usage_one`, the metered usage charge.  No
trapping operation occurs on any path, so no outer `Option` is needed. -/
def charge_usage_one (st : Store) (id : Nat) (usage_amount : Int) :
    Except Error Unit × Store :=
  match lookupKey st.subs id with
  | none => (.error .NotFound, st)
  | some sub =>
    if sub.status ≠ .Active then (.error .NotActive, st)
    else if sub.usage_enabled = false then (.error .UsageNotEnabled, st)
    else if usage_amount ≤ 0 then (.error .InvalidAmount, st)
    else if sub.prepaid_balance < usage_amount then (.error .InsufficientPrepaidBalance, st)
    else
      match checkedSubI128 sub.prepaid_balance usage_amount with
      | none => (.error .Overflow, st)
      | some nb =>
        if nb = 0 then
          match validate_status_transition sub.status .InsufficientBalance with
          | .error e => (.error e, st)
          | .ok _ =>
            let sub' := { sub with prepaid_balance := nb, status := SubscriptionStatus.InsufficientBalance }
            (.ok (), { st with subs := setKey st.subs id sub' })
        else
          (.ok (), { st with subs := setKey st.subs id { sub with prepaid_balance := nb } })

/-- From `admin.rs`: the per-id conversion of a `charge_one` outcome into a
`BatchChargeResult` inside `do_batch_charge`. -/
def mkBatchResult (r : Except Error Unit) : BatchChargeResult :=
  match r with
  | .ok _ => ⟨true, 0⟩
  | .error e => ⟨false, e.toCode⟩

/-- From `admin.rs`: `do_batch_charge`, with the admin gate (an external
authorization collaborator) abstracted away.  Each id is charged with no
idempotency token, in input order, against the store left by the previous id;
a trap in any `charge_one` aborts the whole call (`none`). -/
def do_batch_charge (st : Store) (now : Nat) (ids : List Nat) :
    Option (List BatchChargeResult × Store) :=
  match ids with
  | [] => some ([], st)
  | id :: rest =>
    match charge_one st id now none with
    | none => none
    | some (r, st1) =>
      match do_batch_charge st1 now rest with
      | none => none
      | some (rs, st2) => some (mkBatchResult r :: rs, st2)

/-- The store after charging a list of ids in order (discarding per-id
outcomes); used to phrase what each batch entry observes. -/
def runCharges (st : Store) (now : Nat) (ids : List Nat) : Option Store :=
  match ids with
  | [] => some st
  | id :: rest =>
    match charge_one st id now none with
    | none => none
    | some (_, st1) => runCharges st1 now rest

/-- From `subscription.rs`: `do_create_subscription` plus the `next_id` counter;
`require_auth` on the subscriber is an external collaborator.  No field is
validated; the merchant index is appended to. -/
def do_create_subscription (st : Store) (subscriber merchant : Nat) (amount : Int)
    (interval_seconds : Nat) (now : Nat) (usage_enabled : Bool) :
    Except Error (Nat × Store) :=
  let sub : Subscription :=
    { subscriber := subscriber, merchant := merchant, amount := amount,
      interval_seconds := interval_seconds, last_payment_timestamp := now,
      status := .Active, prepaid_balance := 0, usage_enabled := usage_enabled }
  let id := st.nextId
  let st1 := { st with nextId := st.nextId + 1, subs := setKey st.subs id sub }
  let ids := (lookupKey st1.merchantSubs merchant).getD []
  .ok (id, { st1 with merchantSubs := setKey st1.merchantSubs merchant (ids ++ [id]) })

/-- From `subscription.rs`: `do_cancel_subscription`; `require_auth` on the
authorizer is an external collaborator, the party check is embedded. -/
def do_cancel_subscription (st : Store) (id : Nat) (authorizer : Nat) :
    Except Error Unit × Store :=
  match lookupKey st.subs id with
  | none => (.error .NotFound, st)
  | some sub =>
    if authorizer ≠ sub.subscriber ∧ authorizer ≠ sub.merchant then (.error .Unauthorized, st)
    else
      match validate_status_transition sub.status .Cancelled with
      | .error e => (.error e, st)
      | .ok _ => (.ok (), { st with subs := setKey st.subs id { sub with status := .Cancelled } })

/-- From `subscription.rs`: `do_pause_subscription`; note no party check occurs. -/
def do_pause_subscription (st : Store) (id : Nat) (_authorizer : Nat) :
    Except Error Unit × Store :=
  match lookupKey st.subs id with
  | none => (.error .NotFound, st)
  | some sub =>
    match validate_status_transition sub.status .Paused with
    | .error e => (.error e, st)
    | .ok _ => (.ok (), { st with subs := setKey st.subs id { sub with status := .Paused } })

/-- From `subscription.rs`: `do_resume_subscription`; note no party check occurs. -/
def do_resume_subscription (st : Store) (id : Nat) (_authorizer : Nat) :
    Except Error Unit × Store :=
  match lookupKey st.subs id with
  | none => (.error .NotFound, st)
  | some sub =>
    match validate_status_transition sub.status .Active with
    | .error e => (.error e, st)
    | .ok _ => (.ok (), { st with subs := setKey st.subs id { sub with status := .Active } })

/-- Modelled from the spec: `charge_one_off` (spec §4.3, one-off merchant
charge) is absent from the sources here; only its event type
`OneOffChargedEvent` is declared in `types.rs`.  Following the spec's words:
the caller must equal the subscription's `merchant`, else Unauthorized; status
must be Active or Paused (Cancelled and InsufficientBalance are rejected as
NotActive); `amount > 0` is required (InvalidAmount); `prepaid_balance >=
amount` is required (InsufficientBalance); on success, `amount` is debited
with no status transition even if the balance reaches zero. -/
def charge_one_off (st : Store) (id : Nat) (caller : Nat) (amount : Int) :
    Except Error Unit × Store :=
  match lookupKey st.subs id with
  | none => (.error .NotFound, st)
  | some sub =>
    if caller ≠ sub.merchant then (.error .Unauthorized, st)
    else if sub.status ≠ .Active ∧ sub.status ≠ .Paused then (.error .NotActive, st)
    else if amount ≤ 0 then (.error .InvalidAmount, st)
    else if sub.prepaid_balance < amount then (.error .InsufficientBalance, st)
    else
      let sub' := { sub with prepaid_balance := sub.prepaid_balance - amount }
      (.ok (), { st with subs := setKey st.subs id sub' })

/-! ## Auxiliary lemmas -/

instance {ε α : Type} [DecidableEq ε] [DecidableEq α] : DecidableEq (Except ε α) := fun x y =>
  match x, y with
  | .ok a, .ok b => if h : a = b then .isTrue (by rw [h]) else .isFalse (by simp [h])
  | .error a, .error b => if h : a = b then .isTrue (by rw [h]) else .isFalse (by simp [h])
  | .ok _, .error _ => .isFalse (by simp)
  | .error _, .ok _ => .isFalse (by simp)

theorem checkedSubI128_eq_none (a b : Int) (h : ¬ (I128MIN ≤ a - b ∧ a - b ≤ I128MAX)) :
    checkedSubI128 a b = none := by
  simp only [checkedSubI128, if_neg h]

theorem validate_active_insufficient :
    validate_status_transition .Active .InsufficientBalance = .ok () := rfl

theorem validate_error_is_invalid (f t : SubscriptionStatus) (e : Error)
    (h : validate_status_transition f t = .error e) : e = .InvalidStatusTransition := by
  unfold validate_status_transition at h
  split at h
  · exact absurd h (by simp)
  · split at h
    · exact absurd h (by simp)
    · exact (Except.error.injEq _ _).mp h.symm

theorem checkedSubI128_of_bounds (a b : Int) (h1 : I128MIN ≤ a - b) (h2 : a - b ≤ I128MAX) :
    checkedSubI128 a b = some (a - b) := by
  simp [checkedSubI128, h1, h2]

/-! ## Concrete fixtures used by witnesses and counterexamples -/

/-- A funded, Active subscription (spec §8, concrete scenario 1). -/
def subFunded : Subscription :=
  { subscriber := 1, merchant := 2, amount := 10000000, interval_seconds := 2592000,
    last_payment_timestamp := 1000, status := .Active, prepaid_balance := 30000000,
    usage_enabled := false }

/-- An Active subscription whose balance is below its per-interval amount. -/
def subUnfunded : Subscription := { subFunded with prepaid_balance := 5 }

/-- Store holding only `subFunded` under id 0. -/
def stFunded : Store :=
  { subs := [(0, subFunded)], chargedPeriod := [], idem := [], merchantSubs := [], nextId := 1 }

/-- Store holding only `subUnfunded` under id 0. -/
def stUnfunded : Store :=
  { subs := [(0, subUnfunded)], chargedPeriod := [], idem := [], merchantSubs := [], nextId := 1 }

/-- Empty store. -/
def stEmpty : Store :=
  { subs := [], chargedPeriod := [], idem := [], merchantSubs := [], nextId := 0 }

/-! ## Claim theorems -/

/-- C5: `validate_status_transition (from, to)` succeeds exactly when `from = to`
(for every status, including Cancelled) or `(from, to)` lies in the table
Active→{Paused, Cancelled, InsufficientBalance}, Paused→{Active, Cancelled},
InsufficientBalance→{Active, Cancelled}; every other case fails with
InvalidStatusTransition, and in particular every transition out of Cancelled
to a different status fails. -/
theorem validate_status_transition_table :
    ∀ f t : SubscriptionStatus,
      (validate_status_transition f t = .ok () ↔
        (f = t ∨
         (f = .Active ∧ (t = .Paused ∨ t = .Cancelled ∨ t = .InsufficientBalance)) ∨
         (f = .Paused ∧ (t = .Active ∨ t = .Cancelled)) ∨
         (f = .InsufficientBalance ∧ (t = .Active ∨ t = .Cancelled)))) ∧
      (validate_status_transition f t ≠ .ok () →
        validate_status_transition f t = .error .InvalidStatusTransition) ∧
      (f = .Cancelled → t ≠ .Cancelled →
        validate_status_transition f t = .error .InvalidStatusTransition) := by
  decide

/-- Witness for C5 at a concrete pair: Cancelled → Active is rejected. -/
theorem validate_status_transition_table_witness :
    validate_status_transition .Cancelled .Active = .error .InvalidStatusTransition :=
  (validate_status_transition_table .Cancelled .Active).2.2 rfl (by decide)

/-- C8: on `i128` inputs, `safe_sub_balance balance amount` fails Underflow when
`amount < 0`, fails Underflow when `balance − amount` is unrepresentable or
negative, and otherwise returns exactly `balance − amount ≥ 0`; it never
returns a negative number. -/
theorem safe_sub_balance_spec (b a : Int)
    (hb1 : I128MIN ≤ b) (hb2 : b ≤ I128MAX) (ha1 : I128MIN ≤ a) (ha2 : a ≤ I128MAX) :
    (a < 0 → safe_sub_balance b a = .error .Underflow) ∧
    (0 ≤ a → (b - a < I128MIN ∨ b - a < 0) → safe_sub_balance b a = .error .Underflow) ∧
    (0 ≤ a → 0 ≤ b - a → safe_sub_balance b a = .ok (b - a)) ∧
    (∀ r, safe_sub_balance b a = .ok r → r = b - a ∧ 0 ≤ r) := by
  have hmin : I128MIN ≤ (0 : Int) := I128MIN_nonpos
  refine ⟨?_, ?_, ?_, ?_⟩
  · intro hneg
    simp [safe_sub_balance, validate_non_negative, hneg]
  · intro hpos hbad
    rcases hbad with hlo | hneg
    · have hnone := checkedSubI128_eq_none b a (by omega)
      simp [safe_sub_balance, validate_non_negative, safe_sub, hnone,
        if_neg (by omega : ¬ a < 0)]
    · by_cases hrep : I128MIN ≤ b - a ∧ b - a ≤ I128MAX
      · have hsome := checkedSubI128_of_bounds b a hrep.1 hrep.2
        simp [safe_sub_balance, validate_non_negative, safe_sub, hsome,
          if_neg (by omega : ¬ a < 0), hneg]
      · have hnone := checkedSubI128_eq_none b a hrep
        simp [safe_sub_balance, validate_non_negative, safe_sub, hnone,
          if_neg (by omega : ¬ a < 0)]
  · intro hpos hres
    have hsome := checkedSubI128_of_bounds b a (by omega) (by omega)
    simp [safe_sub_balance, validate_non_negative, safe_sub, hsome,
      if_neg (by omega : ¬ a < 0), if_neg (by omega : ¬ b - a < 0)]
    omega
  · intro r hr
    by_cases hneg : a < 0
    · simp [safe_sub_balance, validate_non_negative, hneg] at hr
    · by_cases hrep : I128MIN ≤ b - a ∧ b - a ≤ I128MAX
      · have hsome := checkedSubI128_of_bounds b a hrep.1 hrep.2
        by_cases hres : b - a < 0
        · simp [safe_sub_balance, validate_non_negative, safe_sub, hsome, hneg, hres] at hr
        · simp [safe_sub_balance, validate_non_negative, safe_sub, hsome, hneg, hres] at hr
          omega
      · have hnone := checkedSubI128_eq_none b a hrep
        simp [safe_sub_balance, validate_non_negative, safe_sub, hnone, hneg] at hr

/-- Witness for C8 at concrete inputs: 1000 − 1500 would be negative, so the
call fails Underflow. -/
theorem safe_sub_balance_spec_witness :
    safe_sub_balance 1000 1500 = .error .Underflow :=
  (safe_sub_balance_spec 1000 1500 (by decide) (by decide) (by decide) (by decide)).2.1
    (by decide) (Or.inr (by decide))

/-- The store produced by creating (with no field validation) a subscription
with `interval_seconds = 0` in the empty store. -/
def stIntervalZero : Store :=
  { subs := [(0, { subscriber := 1, merchant := 2, amount := 5, interval_seconds := 0,
                   last_payment_timestamp := 100, status := .Active, prepaid_balance := 0,
                   usage_enabled := false })],
    chargedPeriod := [], idem := [], merchantSubs := [(2, [0])], nextId := 1 }

/-- C4 (code bug): subscription creation accepts `interval_seconds = 0` without
validation, and an interval charge on the resulting Active subscription
evaluates `now / interval_seconds` — a `u64` division by zero, which panics
(an uncaught trap, modelled as `none`) instead of returning a typed error. -/
theorem charge_one_interval_zero_traps :
    do_create_subscription stEmpty 1 2 5 0 100 false = .ok (0, stIntervalZero) ∧
    charge_one stIntervalZero 0 100 none = none := by
  constructor
  · rfl
  · rfl

/-- C6: `charge_usage_one` checks its preconditions in order — NotFound if the
subscription is absent, NotActive if status ≠ Active, UsageNotEnabled if
`usage_enabled` is false, InvalidAmount if `usage_amount ≤ 0`,
InsufficientPrepaidBalance if `prepaid_balance < usage_amount` — each failing
with no mutation; on success it debits `usage_amount`, and when the resulting
balance is exactly 0 it also sets the status to InsufficientBalance. -/
theorem charge_usage_one_cases (st : Store) (id : Nat) (u : Int) :
    (lookupKey st.subs id = none → charge_usage_one st id u = (.error .NotFound, st)) ∧
    ∀ sub, lookupKey st.subs id = some sub →
      (sub.status ≠ .Active → charge_usage_one st id u = (.error .NotActive, st)) ∧
      (sub.status = .Active → sub.usage_enabled = false →
        charge_usage_one st id u = (.error .UsageNotEnabled, st)) ∧
      (sub.status = .Active → sub.usage_enabled = true → u ≤ 0 →
        charge_usage_one st id u = (.error .InvalidAmount, st)) ∧
      (sub.status = .Active → sub.usage_enabled = true → 0 < u →
        sub.prepaid_balance < u →
        charge_usage_one st id u = (.error .InsufficientPrepaidBalance, st)) ∧
      (sub.status = .Active → sub.usage_enabled = true → 0 < u →
        u ≤ sub.prepaid_balance → sub.prepaid_balance ≤ I128MAX →
        charge_usage_one st id u =
          (.ok (), { st with subs := setKey st.subs id { sub with prepaid_balance := sub.prepaid_balance - u, status := if sub.prepaid_balance - u = 0 then .InsufficientBalance else sub.status } })) := by
  constructor
  · intro h
    simp [charge_usage_one, h]
  · intro sub hsub
    refine ⟨?_, ?_, ?_, ?_, ?_⟩
    · intro hst
      simp [charge_usage_one, hsub, hst]
    · intro hact hen
      simp [charge_usage_one, hsub, hact, hen]
    · intro hact hen hle
      simp [charge_usage_one, hsub, hact, hen, if_pos hle]
    · intro hact hen hpos hlt
      simp [charge_usage_one, hsub, hact, hen, if_neg (by omega : ¬ u ≤ 0), if_pos hlt]
    · intro hact hen hpos hle hmax
      have hsome := checkedSubI128_of_bounds sub.prepaid_balance u
        (by have := I128MIN_nonpos; omega) (by omega)
      by_cases hz : sub.prepaid_balance - u = 0
      · simp [charge_usage_one, hsub, hact, hen, if_neg (by omega : ¬ u ≤ 0),
          if_neg (by omega : ¬ sub.prepaid_balance < u), hsome, hz,
          validate_status_transition, allowedTransition]
      · simp [charge_usage_one, hsub, hact, hen, if_neg (by omega : ¬ u ≤ 0),
          if_neg (by omega : ¬ sub.prepaid_balance < u), hsome, hz]

/-- A usage-enabled, Active subscription used by the C6 witness. -/
def subUsage : Subscription := { subFunded with usage_enabled := true }

/-- Store holding only `subUsage` under id 0. -/
def stUsage : Store := { stFunded with subs := [(0, subUsage)] }

/-- Witness for C6 at a concrete input: a usage charge of 5 against a balance
of 30000000 succeeds, debits 5, and keeps the status Active. -/
theorem charge_usage_one_cases_witness :
    charge_usage_one stUsage 0 5 =
      (.ok (), { stUsage with subs := setKey stUsage.subs 0 { subUsage with prepaid_balance := subUsage.prepaid_balance - 5, status := if subUsage.prepaid_balance - 5 = 0 then .InsufficientBalance else subUsage.status } }) :=
  ((charge_usage_one_cases stUsage 0 5).2 subUsage rfl).2.2.2.2 rfl rfl (by decide)
    (by decide) (by decide)

/-- C9 (spec-modelled): `charge_one_off` fails Unauthorized unless the caller
is the subscription's merchant; fails NotActive unless the status is Active or
Paused; fails InvalidAmount unless `amount > 0`; fails InsufficientBalance
unless `prepaid_balance ≥ amount`; on success it debits `amount` without any
status transition, even when the balance reaches zero. -/
theorem charge_one_off_spec (st : Store) (id : Nat) (caller : Nat) (amount : Int) :
    ∀ sub, lookupKey st.subs id = some sub →
      (caller ≠ sub.merchant → charge_one_off st id caller amount = (.error .Unauthorized, st)) ∧
      (caller = sub.merchant → sub.status ≠ .Active → sub.status ≠ .Paused →
        charge_one_off st id caller amount = (.error .NotActive, st)) ∧
      (caller = sub.merchant → (sub.status = .Active ∨ sub.status = .Paused) → amount ≤ 0 →
        charge_one_off st id caller amount = (.error .InvalidAmount, st)) ∧
      (caller = sub.merchant → (sub.status = .Active ∨ sub.status = .Paused) → 0 < amount →
        sub.prepaid_balance < amount →
        charge_one_off st id caller amount = (.error .InsufficientBalance, st)) ∧
      (caller = sub.merchant → (sub.status = .Active ∨ sub.status = .Paused) → 0 < amount →
        amount ≤ sub.prepaid_balance →
        charge_one_off st id caller amount =
          (.ok (), { st with subs := setKey st.subs id { sub with prepaid_balance := sub.prepaid_balance - amount } })) := by
  intro sub hsub
  have hor : ∀ h : sub.status = .Active ∨ sub.status = .Paused,
      ¬ (sub.status ≠ .Active ∧ sub.status ≠ .Paused) := by
    rintro (h | h) ⟨h1, h2⟩ <;> simp_all
  refine ⟨?_, ?_, ?_, ?_, ?_⟩
  · intro hm
    simp [charge_one_off, hsub, hm]
  · intro hm h1 h2
    simp [charge_one_off, hsub, hm, h1, h2]
  · intro hm hstat hle
    simp [charge_one_off, hsub, hm, if_neg (hor hstat), if_pos hle]
  · intro hm hstat hpos hlt
    simp [charge_one_off, hsub, hm, if_neg (hor hstat),
      if_neg (by omega : ¬ amount ≤ 0), if_pos hlt]
  · intro hm hstat hpos hle
    simp [charge_one_off, hsub, hm, if_neg (hor hstat),
      if_neg (by omega : ¬ amount ≤ 0), if_neg (by omega : ¬ sub.prepaid_balance < amount)]

/-- Witness for C9 at a concrete input: a one-off charge of the whole balance
by the merchant succeeds and leaves the status untouched (Active) although the
balance reaches zero. -/
theorem charge_one_off_spec_witness :
    charge_one_off stFunded 0 2 30000000 =
      (.ok (), { stFunded with subs := setKey stFunded.subs 0 { subFunded with prepaid_balance := subFunded.prepaid_balance - 30000000 } }) :=
  (charge_one_off_spec stFunded 0 2 30000000 subFunded rfl).2.2.2.2 rfl (Or.inl rfl)
    (by decide) (by decide)

/-- C10: cancelling fails Unauthorized whenever the authorizer is neither the
subscriber nor the merchant, but pause and resume perform no party check: for
every authenticated authorizer they never return Unauthorized. -/
theorem cancel_party_check_pause_resume_unchecked :
    (∀ st id auth sub, lookupKey st.subs id = some sub →
      auth ≠ sub.subscriber → auth ≠ sub.merchant →
      do_cancel_subscription st id auth = (.error .Unauthorized, st)) ∧
    (∀ st id auth, (do_pause_subscription st id auth).1 ≠ .error .Unauthorized) ∧
    (∀ st id auth, (do_resume_subscription st id auth).1 ≠ .error .Unauthorized) := by
  refine ⟨?_, ?_, ?_⟩
  · intro st id auth sub hsub h1 h2
    simp [do_cancel_subscription, hsub, h1, h2]
  · intro st id auth
    rcases hsub : lookupKey st.subs id with _ | sub
    · simp [do_pause_subscription, hsub]
    · rcases hv : validate_status_transition sub.status .Paused with e | u
      · have he := validate_error_is_invalid _ _ _ hv
        subst he
        simp [do_pause_subscription, hsub, hv]
      · simp [do_pause_subscription, hsub, hv]
  · intro st id auth
    rcases hsub : lookupKey st.subs id with _ | sub
    · simp [do_resume_subscription, hsub]
    · rcases hv : validate_status_transition sub.status .Active with e | u
      · have he := validate_error_is_invalid _ _ _ hv
        subst he
        simp [do_resume_subscription, hsub, hv]
      · simp [do_resume_subscription, hsub, hv]

/-- Witness for C10 at concrete inputs: an unrelated address 99 cannot cancel,
yet can pause (no Unauthorized possible). -/
theorem cancel_party_check_pause_resume_unchecked_witness :
    do_cancel_subscription stFunded 0 99 = (.error .Unauthorized, stFunded) ∧
    (do_pause_subscription stFunded 0 99).1 ≠ .error .Unauthorized ∧
    (do_resume_subscription stFunded 0 99).1 ≠ .error .Unauthorized :=
  ⟨cancel_party_check_pause_resume_unchecked.1 stFunded 0 99 subFunded rfl
      (by decide) (by decide),
    cancel_party_check_pause_resume_unchecked.2.1 stFunded 0 99,
    cancel_party_check_pause_resume_unchecked.2.2 stFunded 0 99⟩

/-- The store committed by a successful (non-idempotent-replay) interval
charge: the debited subscription, the recorded billing period, and, when a
token was supplied, the recorded idempotency key. -/
def chargedStore (st : Store) (id now : Nat) (tok : Option Nat) (sub : Subscription)
    (nb : Int) : Store :=
  match tok with
  | some k =>
    { st with
      subs := setKey st.subs id { sub with prepaid_balance := nb, last_payment_timestamp := now },
      chargedPeriod := setKey st.chargedPeriod id (now / sub.interval_seconds),
      idem := setKey st.idem id k }
  | none =>
    { st with
      subs := setKey st.subs id { sub with prepaid_balance := nb, last_payment_timestamp := now },
      chargedPeriod := setKey st.chargedPeriod id (now / sub.interval_seconds) }

theorem chargedStore_subs (st : Store) (id now : Nat) (tok : Option Nat) (sub : Subscription)
    (nb : Int) :
    (chargedStore st id now tok sub nb).subs =
      setKey st.subs id { sub with prepaid_balance := nb, last_payment_timestamp := now } := by
  cases tok <;> rfl

theorem chargedStore_cp (st : Store) (id now : Nat) (tok : Option Nat) (sub : Subscription)
    (nb : Int) :
    (chargedStore st id now tok sub nb).chargedPeriod =
      setKey st.chargedPeriod id (now / sub.interval_seconds) := by
  cases tok <;> rfl

/-- Running `charge_one` with no idempotent-replay hit reduces to the replay gate. -/
theorem charge_one_to_gate (st : Store) (id now : Nat) (tok : Option Nat) (sub : Subscription)
    (hsub : lookupKey st.subs id = some sub)
    (hact : sub.status = .Active)
    (hint : sub.interval_seconds ≠ 0)
    (hnoidem : ∀ k, tok = some k → lookupKey st.idem id ≠ some k) :
    charge_one st id now tok = chargeReplayGate st id now tok sub := by
  simp only [charge_one, hsub]
  rw [if_neg (by simp [hact]), if_neg hint]
  rcases tok with _ | k
  · rfl
  · rcases hid : lookupKey st.idem id with _ | s
    · simp only [hid]
    · have hne : s ≠ k := fun hsk => hnoidem k rfl (by rw [hid, hsk])
      simp only [hid, if_neg hne]

/-- Running `charge_one` with a token equal to the stored idempotency key returns
success without touching the store. -/
theorem charge_one_idem_hit (st : Store) (id now k : Nat) (sub : Subscription)
    (hsub : lookupKey st.subs id = some sub)
    (hact : sub.status = .Active)
    (hint : sub.interval_seconds ≠ 0)
    (hid : lookupKey st.idem id = some k) :
    charge_one st id now (some k) = some (.ok (), st) := by
  simp only [charge_one, hsub]
  rw [if_neg (by simp [hact]), if_neg hint]
  simp [hid]

/-- The replay gate passes through when every stored period is older. -/
theorem chargeReplayGate_pass (st : Store) (id now : Nat) (tok : Option Nat)
    (sub : Subscription)
    (hreplay : ∀ p, lookupKey st.chargedPeriod id = some p → p < now / sub.interval_seconds) :
    chargeReplayGate st id now tok sub = chargeSettle st id now tok sub := by
  unfold chargeReplayGate
  rcases hcp : lookupKey st.chargedPeriod id with _ | p
  · rfl
  · have hlt := hreplay p hcp
    have hn : ¬ now / sub.interval_seconds ≤ p := by omega
    show (if now / sub.interval_seconds ≤ p then some ((Except.error Error.Replay : Except Error Unit), st)
      else chargeSettle st id now tok sub) = chargeSettle st id now tok sub
    rw [if_neg hn]

/-- The replay gate fails Replay when the stored period is current or newer. -/
theorem chargeReplayGate_replay (st : Store) (id now p : Nat) (tok : Option Nat)
    (sub : Subscription)
    (hcp : lookupKey st.chargedPeriod id = some p)
    (hle : now / sub.interval_seconds ≤ p) :
    chargeReplayGate st id now tok sub = some (.error .Replay, st) := by
  unfold chargeReplayGate
  simp only [hcp, if_pos hle]

/-- Settlement on an Active subscription whose balance is short: the status
flip is persisted and the call fails InsufficientBalance. -/
theorem chargeSettle_insufficient (st : Store) (id now : Nat) (tok : Option Nat)
    (sub : Subscription)
    (hact : sub.status = .Active)
    (hbal : sub.prepaid_balance < sub.amount)
    (hadd : sub.last_payment_timestamp + sub.interval_seconds ≤ U64MAX)
    (helapsed : sub.last_payment_timestamp + sub.interval_seconds ≤ now) :
    chargeSettle st id now tok sub =
      some (.error .InsufficientBalance,
        { st with subs := setKey st.subs id { sub with status := .InsufficientBalance } }) := by
  unfold chargeSettle
  rw [if_neg (by omega), if_neg (by omega), if_pos hbal, hact, validate_active_insufficient]

/-- Inversion of a successful settlement: the amount was debited and the
period (and token, when supplied) recorded. -/
theorem chargeSettle_ok_inv (st st1 : Store) (id now : Nat) (tok : Option Nat)
    (sub : Subscription)
    (hact : sub.status = .Active)
    (h : chargeSettle st id now tok sub = some (.ok (), st1)) :
    ∃ nb, checkedSubI128 sub.prepaid_balance sub.amount = some nb ∧
      st1 = chargedStore st id now tok sub nb := by
  unfold chargeSettle at h
  by_cases h1 : U64MAX < sub.last_payment_timestamp + sub.interval_seconds
  · rw [if_pos h1] at h
    simp at h
  rw [if_neg h1] at h
  by_cases h2 : now < sub.last_payment_timestamp + sub.interval_seconds
  · rw [if_pos h2] at h
    simp at h
  rw [if_neg h2] at h
  by_cases h3 : sub.prepaid_balance < sub.amount
  · rw [if_pos h3, hact, validate_active_insufficient] at h
    simp at h
  rw [if_neg h3] at h
  rcases hnb : checkedSubI128 sub.prepaid_balance sub.amount with _ | nb
  · simp only [hnb] at h
    simp at h
  simp only [hnb] at h
  refine ⟨nb, rfl, ?_⟩
  rcases tok with _ | k
  · simp only [chargedStore]
    simp only [Option.some.injEq, Prod.mk.injEq, true_and] at h
    exact h.symm
  · simp only [chargedStore]
    simp only [Option.some.injEq, Prod.mk.injEq, true_and] at h
    exact h.symm

/-- Inversion of a successful pass through the replay gate. -/
theorem chargeReplayGate_ok_inv (st st1 : Store) (id now : Nat) (tok : Option Nat)
    (sub : Subscription)
    (hact : sub.status = .Active)
    (h : chargeReplayGate st id now tok sub = some (.ok (), st1)) :
    ∃ nb, checkedSubI128 sub.prepaid_balance sub.amount = some nb ∧
      st1 = chargedStore st id now tok sub nb := by
  unfold chargeReplayGate at h
  rcases hcp : lookupKey st.chargedPeriod id with _ | p
  · simp only [hcp] at h
    exact chargeSettle_ok_inv st st1 id now tok sub hact h
  · simp only [hcp] at h
    by_cases hpp : now / sub.interval_seconds ≤ p
    · rw [if_pos hpp] at h
      simp at h
    · rw [if_neg hpp] at h
      exact chargeSettle_ok_inv st st1 id now tok sub hact h

/-- Inversion of a successful interval charge: the subscription exists, is
Active, has a nonzero interval, and either the call was an idempotent replay
(the token matches the stored key, nothing changed) or it debited the amount
and recorded the period and the supplied token. -/
theorem charge_one_ok_inv (st st1 : Store) (id now : Nat) (tok : Option Nat)
    (h : charge_one st id now tok = some (.ok (), st1)) :
    ∃ sub, lookupKey st.subs id = some sub ∧ sub.status = .Active ∧
      sub.interval_seconds ≠ 0 ∧
      ((st1 = st ∧ ∃ k, tok = some k ∧ lookupKey st.idem id = some k) ∨
       ∃ nb, checkedSubI128 sub.prepaid_balance sub.amount = some nb ∧
         (∀ k, tok = some k → lookupKey st.idem id ≠ some k) ∧
         st1 = chargedStore st id now tok sub nb) := by
  rcases hsub : lookupKey st.subs id with _ | sub
  · simp [charge_one, hsub] at h
  · simp only [charge_one, hsub] at h
    by_cases hact : sub.status = .Active
    swap
    · rw [if_pos (by simp [hact])] at h
      simp at h
    by_cases hint : sub.interval_seconds = 0
    · rw [if_neg (by simp [hact]), if_pos hint] at h
      simp at h
    rw [if_neg (by simp [hact]), if_neg hint] at h
    refine ⟨sub, rfl, hact, hint, ?_⟩
    rcases tok with _ | k
    · replace h : chargeReplayGate st id now none sub = some (.ok (), st1) := h
      obtain ⟨nb, hnb, hst⟩ := chargeReplayGate_ok_inv st st1 id now none sub hact h
      refine Or.inr ⟨nb, hnb, ?_, hst⟩
      intro k2 hk2
      simp at hk2
    · rcases hid : lookupKey st.idem id with _ | s
      · simp only [hid] at h
        obtain ⟨nb, hnb, hst⟩ := chargeReplayGate_ok_inv st st1 id now (some k) sub hact h
        refine Or.inr ⟨nb, hnb, ?_, hst⟩
        intro k2 hk2
        injection hk2 with hk2
        subst hk2
        simp
      · simp only [hid] at h
        by_cases hsk : s = k
        · rw [if_pos hsk] at h
          simp only [Option.some.injEq, Prod.mk.injEq, true_and] at h
          exact Or.inl ⟨h.symm, k, rfl, by rw [hsk]⟩
        · rw [if_neg hsk] at h
          obtain ⟨nb, hnb, hst⟩ := chargeReplayGate_ok_inv st st1 id now (some k) sub hact h
          refine Or.inr ⟨nb, hnb, ?_, hst⟩
          intro k2 hk2
          injection hk2 with hk2
          subst hk2
          simp [hsk]

/-- C1: an interval charge on an Active subscription with
`prepaid_balance < amount` that reaches the balance check (the id resolves,
the supplied token does not match the stored one, the period and interval
guards pass) fails with InsufficientBalance, persists the status as
InsufficientBalance, and leaves `prepaid_balance` and
`last_payment_timestamp` unchanged; no debit occurs. -/
theorem charge_one_insufficient_flips_status (st : Store) (id now : Nat) (tok : Option Nat)
    (sub : Subscription)
    (hsub : lookupKey st.subs id = some sub)
    (hact : sub.status = .Active)
    (hbal : sub.prepaid_balance < sub.amount)
    (hint : sub.interval_seconds ≠ 0)
    (hidem : ∀ k, tok = some k → lookupKey st.idem id ≠ some k)
    (hreplay : ∀ p, lookupKey st.chargedPeriod id = some p → p < now / sub.interval_seconds)
    (hadd : sub.last_payment_timestamp + sub.interval_seconds ≤ U64MAX)
    (helapsed : sub.last_payment_timestamp + sub.interval_seconds ≤ now) :
    charge_one st id now tok =
      some (.error .InsufficientBalance,
        { st with subs := setKey st.subs id { sub with status := .InsufficientBalance } }) := by
  rw [charge_one_to_gate st id now tok sub hsub hact hint hidem,
    chargeReplayGate_pass st id now tok sub hreplay,
    chargeSettle_insufficient st id now tok sub hact hbal hadd helapsed]

/-- Witness for C1 at a concrete input: the underfunded subscription (balance
5 < amount 10000000) is charged after a full interval; the charge fails
InsufficientBalance and only the status field changes. -/
theorem charge_one_insufficient_flips_status_witness :
    charge_one stUnfunded 0 2593000 none =
      some (.error .InsufficientBalance,
        { stUnfunded with subs := setKey stUnfunded.subs 0 { subUnfunded with status := .InsufficientBalance } }) :=
  charge_one_insufficient_flips_status stUnfunded 0 2593000 none subUnfunded rfl rfl
    (by decide) (by decide) (fun k h => nomatch h) (fun p hp => nomatch hp)
    (by decide) (by decide)

/-- C3: if an interval charge with a token succeeds, a second interval charge
for the same subscription with the same token (state otherwise unchanged, at
any timestamp) also returns success, mutates nothing, and leaves the
prepaid balance identical to the balance after the first charge. -/
theorem charge_one_same_token_idempotent (st st1 : Store) (id now now2 k : Nat)
    (h1 : charge_one st id now (some k) = some (.ok (), st1)) :
    charge_one st1 id now2 (some k) = some (.ok (), st1) := by
  obtain ⟨sub, hsub, hact, hint, hcase⟩ := charge_one_ok_inv st st1 id now (some k) h1
  rcases hcase with ⟨hst, k2, hk2, hid⟩ | ⟨nb, hnb, hno, hst⟩
  · injection hk2 with hk2
    subst hk2
    subst hst
    exact charge_one_idem_hit st1 id now2 k sub hsub hact hint hid
  · subst hst
    have hsub1 : lookupKey (chargedStore st id now (some k) sub nb).subs id =
        some { sub with prepaid_balance := nb, last_payment_timestamp := now } := by
      rw [chargedStore_subs]
      exact lookupKey_setKey_same st.subs id _
    have hid1 : lookupKey (chargedStore st id now (some k) sub nb).idem id = some k := by
      simp only [chargedStore]
      exact lookupKey_setKey_same st.idem id k
    exact charge_one_idem_hit (chargedStore st id now (some k) sub nb) id now2 k
      { sub with prepaid_balance := nb, last_payment_timestamp := now } hsub1 hact hint hid1

/-- The store after a successful first charge of `stFunded` with token 7 at
time 2593000: the balance debited, the period and the token recorded. -/
def stFundedCharged : Store :=
  { subs := [(0, { subFunded with prepaid_balance := 20000000, last_payment_timestamp := 2593000 })],
    chargedPeriod := [(0, 1)], idem := [(0, 7)], merchantSubs := [], nextId := 1 }

/-- Witness for C3 at a concrete input: after a first successful charge with
token 7, a second charge with token 7 succeeds and changes nothing. -/
theorem charge_one_same_token_idempotent_witness :
    charge_one stFundedCharged 0 2593000 (some 7) = some (.ok (), stFundedCharged) :=
  charge_one_same_token_idempotent stFunded stFundedCharged 0 2593000 2593000 7 (by decide)

/-- Counterexample to C2 as stated: two interval charges in the same billing
period (identical timestamp), both with idempotency token 7.  The first
succeeds; the second returns success — not the Replay failure the claim
demands for every token. -/
theorem second_charge_same_period_matching_token_succeeds :
    charge_one stFunded 0 2593000 (some 7) = some (.ok (), stFundedCharged) ∧
    charge_one stFundedCharged 0 2593000 (some 7) = some (.ok (), stFundedCharged) ∧
    (charge_one stFundedCharged 0 2593000 (some 7)).map Prod.fst ≠
      some (.error .Replay) := by
  refine ⟨by decide, by decide, ?_⟩
  intro hc
  rw [show charge_one stFundedCharged 0 2593000 (some 7) = some (.ok (), stFundedCharged)
    from by decide] at hc
  simp [Option.map] at hc

/-- C2 (amended): after a successful interval charge that actually debited
(its token, if any, did not match the stored key), a second interval charge
in the same billing period fails with Replay — unless the second call's token
matches the idempotency key stored at that point, in which case it returns
success with no mutation (the idempotency check precedes the replay check). -/
theorem second_charge_same_period_fails_replay (st st1 : Store) (id now1 now2 : Nat)
    (tok1 tok2 : Option Nat) (sub : Subscription)
    (hsub : lookupKey st.subs id = some sub)
    (hnoidem1 : ∀ k, tok1 = some k → lookupKey st.idem id ≠ some k)
    (h1 : charge_one st id now1 tok1 = some (.ok (), st1))
    (hperiod : now2 / sub.interval_seconds = now1 / sub.interval_seconds)
    (hnoidem2 : ∀ k, tok2 = some k → lookupKey st1.idem id ≠ some k) :
    charge_one st1 id now2 tok2 = some (.error .Replay, st1) := by
  obtain ⟨sub0, hsub0, hact, hint, hcase⟩ := charge_one_ok_inv st st1 id now1 tok1 h1
  rw [hsub] at hsub0
  injection hsub0 with hsub0
  subst hsub0
  rcases hcase with ⟨hst, k, hk, hid⟩ | ⟨nb, hnb, hno, hst⟩
  · exact absurd hid (hnoidem1 k hk)
  · subst hst
    have hsub1 : lookupKey (chargedStore st id now1 tok1 sub nb).subs id =
        some { sub with prepaid_balance := nb, last_payment_timestamp := now1 } := by
      rw [chargedStore_subs]
      exact lookupKey_setKey_same st.subs id _
    have hcp1 : lookupKey (chargedStore st id now1 tok1 sub nb).chargedPeriod id =
        some (now1 / sub.interval_seconds) := by
      rw [chargedStore_cp]
      exact lookupKey_setKey_same st.chargedPeriod id _
    rw [charge_one_to_gate (chargedStore st id now1 tok1 sub nb) id now2 tok2
      { sub with prepaid_balance := nb, last_payment_timestamp := now1 } hsub1 hact hint hnoidem2]
    exact chargeReplayGate_replay (chargedStore st id now1 tok1 sub nb) id now2
      (now1 / sub.interval_seconds) tok2
      { sub with prepaid_balance := nb, last_payment_timestamp := now1 } hcp1
      (le_of_eq hperiod)

/-- The store after a successful first charge of `stFunded` with no token at
time 2593000. -/
def stFundedChargedNoTok : Store :=
  { subs := [(0, { subFunded with prepaid_balance := 20000000, last_payment_timestamp := 2593000 })],
    chargedPeriod := [(0, 1)], idem := [], merchantSubs := [], nextId := 1 }

/-- Witness for the amended C2 at a concrete input: a second tokenless charge
at the identical timestamp fails Replay. -/
theorem second_charge_same_period_fails_replay_witness :
    charge_one stFundedChargedNoTok 0 2593000 none =
      some (.error .Replay, stFundedChargedNoTok) :=
  second_charge_same_period_fails_replay stFunded stFundedChargedNoTok 0 2593000 2593000
    none none subFunded rfl (fun k h => nomatch h) (by decide) rfl (fun k h => nomatch h)

/-- C7: a completed `do_batch_charge` returns one entry per input id, in input
order; entry `i` is `(true, 0)` when the tokenless interval charge of the
`i`-th id succeeded and `(false, code)` with the error's taxonomy code
otherwise; an id's failure neither stops nor rolls back the rest, and each
id's charge runs against the store committed by the earlier entries
(`runCharges` of the preceding prefix). -/
theorem do_batch_charge_spec (st : Store) (now : Nat) (ids : List Nat)
    (rs : List BatchChargeResult) (stF : Store)
    (h : do_batch_charge st now ids = some (rs, stF)) :
    rs.length = ids.length ∧
    runCharges st now ids = some stF ∧
    ∀ i, i < ids.length →
      ∃ stI r stN,
        runCharges st now (List.take i ids) = some stI ∧
        charge_one stI (ids.getD i 0) now none = some (r, stN) ∧
        rs.getD i ⟨true, 0⟩ = mkBatchResult r := by
  induction ids generalizing st rs with
  | nil =>
    simp only [do_batch_charge, Option.some.injEq, Prod.mk.injEq] at h
    obtain ⟨hrs, hstF⟩ := h
    subst hrs
    subst hstF
    refine ⟨rfl, rfl, ?_⟩
    intro i hi
    exact absurd hi (by simp)
  | cons id rest ih =>
    rw [do_batch_charge] at h
    rcases hc : charge_one st id now none with _ | rst1
    · rw [hc] at h
      simp at h
    obtain ⟨r, st1⟩ := rst1
    simp only [hc] at h
    rcases hb : do_batch_charge st1 now rest with _ | rsst2
    · simp [hb] at h
    obtain ⟨rs2, st2⟩ := rsst2
    simp only [hb] at h
    simp only [Option.some.injEq, Prod.mk.injEq] at h
    obtain ⟨hrs, hstF⟩ := h
    subst hrs
    subst hstF
    obtain ⟨hlen, hrun, hentries⟩ := ih st1 rs2 hb
    refine ⟨by simp [hlen], ?_, ?_⟩
    · rw [runCharges, hc]
      exact hrun
    · intro i hi
      cases i with
      | zero =>
        exact ⟨st, r, st1, rfl, hc, rfl⟩
      | succ j =>
        have hj : j < rest.length := by simpa using hi
        obtain ⟨stI, r2, stN, hrunI, hcI, hresI⟩ := hentries j hj
        refine ⟨stI, r2, stN, ?_, hcI, hresI⟩
        rw [List.take_succ_cons, runCharges, hc]
        exact hrunI

/-- Two-subscription store for the C7 witness: id 0 funded, id 1 unfunded. -/
def stBatch : Store :=
  { subs := [(0, subFunded), (1, subUnfunded)], chargedPeriod := [], idem := [],
    merchantSubs := [], nextId := 2 }

/-- The per-id outcomes of batch-charging `[0, 1]` against `stBatch`: id 0
succeeds, id 1 fails with the InsufficientBalance code 1003. -/
def rsBatch : List BatchChargeResult := [⟨true, 0⟩, ⟨false, 1003⟩]

/-- The store left by batch-charging `[0, 1]` against `stBatch`. -/
def stBatchFinal : Store :=
  { subs := [(0, { subFunded with prepaid_balance := 20000000, last_payment_timestamp := 2593000 }),
             (1, { subUnfunded with status := .InsufficientBalance })],
    chargedPeriod := [(0, 1)], idem := [], merchantSubs := [], nextId := 2 }

/-- Witness for C7 at a concrete input: the batch `[0, 1]` produces exactly
one result per id. -/
theorem do_batch_charge_spec_witness :
    rsBatch.length = [0, 1].length ∧
    runCharges stBatch 2593000 [0, 1] = some stBatchFinal :=
  ⟨(do_batch_charge_spec stBatch 2593000 [0, 1] rsBatch stBatchFinal (by decide)).1,
   (do_batch_charge_spec stBatch 2593000 [0, 1] rsBatch stBatchFinal (by decide)).2.1⟩

end SubscriptionVault
